import Mathlib

/-!
Verification of the Authentication & Progressive-Lockout Engine of the
MyVault application (`src/main.py`) against its natural-language
specification, via a shallow embedding in Lean 4.

Modelling conventions:
* Python strings are Lean `String`; `str.strip()` and `str.lower()` are
  embedded as `pyStrip` and `pyLower` (ASCII whitespace / ASCII case, the
  only characters exercised by the claims).
* `hmac.new(salt, passkey, sha256).hexdigest()` is embedded as an ideal
  (collision-free) keyed hash: a digest is abstracted by the
  (key, message) pair that produced it, and `hmac.compare_digest` is
  digest equality.  An absent stored hash (Python default `""`) never
  equals a real digest, which is modelled with `Option`.
* Wall-clock time (`datetime.now()`) is a `Nat` number of seconds passed
  explicitly to every operation that reads the clock.
* `secrets.token_hex(16)` (fresh salt generation) is a `String` parameter
  of the operations that draw a salt.
* The persistent `auth` shelve store is the record `AuthStore`; the
  in-memory mirror fields of `MyVaultApp` (`_failed_attempts`,
  `_lockout_until`, `_lockout_count`) together with the store form
  `AppState`.  Store reads with defaults (`auth.get(k, d)`) are embedded
  by giving the record fields those defaults.
-/

namespace MyVault

/-- Python ASCII whitespace characters recognised by `str.strip()`. -/
def isPySpace (c : Char) : Bool :=
  c == ' ' || c == '\t' || c == '\n' || c == '\r' || c == '\x0b' || c == '\x0c'

/-- Embedding of Python `str.strip()`: drop leading and trailing whitespace. -/
def pyStrip (s : String) : String :=
  ⟨(((s.data.dropWhile isPySpace).reverse.dropWhile isPySpace).reverse)⟩

/-- Embedding of Python `str.lower()` (ASCII case folding). -/
def pyLower (s : String) : String :=
  ⟨s.data.map Char.toLower⟩

/-- Digest of the ideal keyed hash: HMAC-SHA256 is modelled as
collision-free, so a digest is identified by the (key, message) pair. -/
structure Digest where
  key : String
  msg : String
deriving DecidableEq

/-- Embedding of `_hash_passkey(passkey, salt)` (main.py:907):
`hmac.new(salt.encode(), passkey.encode(), hashlib.sha256).hexdigest()`,
under the ideal-hash model. -/
def hash_passkey (passkey salt : String) : Digest :=
  ⟨salt, passkey⟩

/-- Embedding of `simulate_voice_verification` (main.py:1006): sleeps and
returns `True` unconditionally. -/
def simulate_voice_verification : Bool := true

/-- Embedding of `simulate_face_verification` (main.py:1011): sleeps and
returns `True` unconditionally. -/
def simulate_face_verification : Bool := true

/-- Lockout policy constants (main.py:99-102). -/
def MAX_ATTEMPTS : Nat := 3

/-- Base lockout window in seconds (main.py:100). -/
def LOCKOUT_BASE_TIME : Nat := 60

/-- Exponential backoff multiplier (main.py:101). -/
def LOCKOUT_MULTIPLIER : Nat := 2

/-- Cap on the lockout window in seconds (main.py:102). -/
def MAX_LOCKOUT_TIME : Nat := 3600

/-- The persisted `auth` StorageBox of `MyVaultApp`.  Fields carry the
defaults used by the corresponding `auth.get(key, default)` reads; `none`
models an absent key (falsy in Python). -/
structure AuthStore where
  salt : Option String := none
  pass_hash : Option Digest := none
  secret_question : Option String := none
  secret_answer_hash : Option Digest := none
  secret_answer_salt : Option String := none
  failed_attempts : Nat := 0
  lockout_until : Option Nat := none
  lockout_count : Nat := 0
deriving DecidableEq

/-- Embedding of `MyVaultApp._verify_passkey` (main.py:1174-1177):
recompute the keyed hash with the stored salt (default `""`) and compare
constant-time against the stored hash.  A missing stored hash (Python
default `""`) never equals a hexdigest, hence the `Option` equality. -/
def verify_passkey (auth : AuthStore) (passkey : String) : Bool :=
  decide (some (hash_passkey passkey (auth.salt.getD "")) = auth.pass_hash)

/-- Embedding of `MyVaultApp._save_passkey` (main.py:1179-1182); the fresh
salt drawn by `secrets.token_hex(16)` is a parameter. -/
def save_passkey (auth : AuthStore) (passkey salt : String) : AuthStore :=
  { auth with salt := some salt, pass_hash := some (hash_passkey passkey salt) }

/-- Embedding of `MyVaultApp._save_secret_question` (main.py:1188-1193):
hashes the stripped, lower-cased answer with a fresh salt. -/
def save_secret_question (auth : AuthStore) (question_key answer answer_salt : String) :
    AuthStore :=
  { auth with
      secret_question := some question_key
      secret_answer_hash := some (hash_passkey (pyLower (pyStrip answer)) answer_salt)
      secret_answer_salt := some answer_salt }

/-- Embedding of `MyVaultApp._verify_secret_answer` (main.py:1195-1198):
normalises the candidate the same way before hashing and comparing. -/
def verify_secret_answer (auth : AuthStore) (answer : String) : Bool :=
  decide (some (hash_passkey (pyLower (pyStrip answer)) (auth.secret_answer_salt.getD ""))
            = auth.secret_answer_hash)

/-- State of a running `MyVaultApp`: the persisted store plus the
in-memory mirror fields `_failed_attempts`, `_lockout_until`,
`_lockout_count`. -/
structure AppState where
  auth : AuthStore
  failed_attempts : Nat := 0
  lockout_until : Option Nat := none
  lockout_count : Nat := 0
deriving DecidableEq

/-- Embedding of `MyVaultApp._is_locked_out` (main.py:1201-1211): lazily
load `lockout_until` from the store into memory, then compare against the
clock.  Returns the flag together with the (possibly updated) state. -/
def is_locked_out (s : AppState) (now : Nat) : Bool × AppState :=
  let s := if s.lockout_until.isNone then { s with lockout_until := s.auth.lockout_until } else s
  match s.lockout_until with
  | some u => (decide (now < u), s)
  | none => (false, s)

/-- Embedding of `MyVaultApp._get_lockout_remaining` (main.py:1213-1217):
`max(0, lockout_until - now)`, which is truncated `Nat` subtraction. -/
def get_lockout_remaining (s : AppState) (now : Nat) : Nat :=
  match s.lockout_until with
  | some u => u - now
  | none => 0

/-- Embedding of `MyVaultApp._apply_lockout` (main.py:1219-1226): reads
`lockout_count` from the STORE, increments it, computes the capped
exponential window, sets `lockout_until`, and zeroes `failed_attempts` in
both memory and store. -/
def apply_lockout (s : AppState) (now : Nat) : AppState :=
  let cnt := s.auth.lockout_count + 1
  let w := min (LOCKOUT_BASE_TIME * LOCKOUT_MULTIPLIER ^ (cnt - 1)) MAX_LOCKOUT_TIME
  { auth := { s.auth with
                lockout_count := cnt
                lockout_until := some (now + w)
                failed_attempts := 0 },
    failed_attempts := 0,
    lockout_until := some (now + w),
    lockout_count := cnt }

/-- Embedding of `MyVaultApp._clear_lockout` (main.py:1228-1233).  Note
that the code sets `self._lockout_until`, `self._lockout_count` and the
three store keys, but never assigns `self._failed_attempts`: the
in-memory attempt counter keeps its previous value. -/
def clear_lockout (s : AppState) : AppState :=
  { auth := { s.auth with lockout_until := none, lockout_count := 0, failed_attempts := 0 },
    failed_attempts := s.failed_attempts,
    lockout_until := none,
    lockout_count := 0 }

/-- Embedding of app start (`MyVaultApp.__init__` plus `main`,
main.py:1148-1255): the in-memory mirrors are reinitialised
(`_failed_attempts` is reloaded from the store, `_lockout_until` and
`_lockout_count` start empty) while the persisted store survives. -/
def restart (auth : AuthStore) : AppState :=
  { auth := auth, failed_attempts := auth.failed_attempts,
    lockout_until := none, lockout_count := 0 }

/-- Per-factor verification flags of one login session (the `verified`
dict created afresh in `_build_verification_page`, main.py:1957). -/
structure Verified where
  passkey : Bool := false
  voice : Bool := false
  face : Bool := false
  fingerprint : Bool := false
deriving DecidableEq

/-- The all-false `verified` dict a fresh verification page starts with
(main.py:1957). -/
def init_verified : Verified := {}

/-- Boolean pointwise order on `Verified`: every factor verified in the
first is verified in the second. -/
def vle (v w : Verified) : Bool :=
  (!v.passkey || w.passkey) && (!v.voice || w.voice) &&
    (!v.face || w.face) && (!v.fingerprint || w.fingerprint)

/-- Outcome of one press of the passkey Verify button at login. -/
inductive LoginOutcome where
  | lockedOut
  | nextStep
  | wrongPass (left : Nat)
deriving DecidableEq

/-- Embedding of the login-page `_verify_passkey` handler
(main.py:1995-2017): guard on the in-memory attempt counter, strip the
field text, verify; on success zero the counter (memory and store) and
mark the factor; on failure increment both counters and either lock out
or report the attempts left. -/
def login_verify_passkey (s : AppState) (v : Verified) (text : String) (now : Nat) :
    AppState × Verified × LoginOutcome :=
  if s.failed_attempts ≥ MAX_ATTEMPTS then
    (apply_lockout s now, v, .lockedOut)
  else if verify_passkey s.auth (pyStrip text) then
    ({ s with failed_attempts := 0, auth := { s.auth with failed_attempts := 0 } },
     { v with passkey := true }, .nextStep)
  else
    let fa := s.failed_attempts + 1
    let s2 := { s with failed_attempts := fa, auth := { s.auth with failed_attempts := fa } }
    if MAX_ATTEMPTS - fa ≤ 0 then
      (apply_lockout s2 now, v, .lockedOut)
    else
      (s2, v, .wrongPass (MAX_ATTEMPTS - fa))

/-- UI fields mutated by the scripted voice/face verification handlers. -/
structure UiState where
  direction_icon : String := ""
  direction_text : String := ""
  progress_text : String := ""
  status_text : String := ""
deriving DecidableEq

/-- The scripted voice steps of the login `_verify_voice` handler
(main.py:2025-2029): translation key, emoji, caption, delay seconds. -/
def loginVoiceSteps : List (String × String × String × Nat) :=
  [("voice_speak_now", "🎤", "Get ready to speak...", 3),
   ("voice_listening", "👂", "Speak NOW: \"My vault is secure\"", 10),
   ("voice_processing", "⚙️", "Processing voice...", 2)]

/-- The scripted face steps of the login `_verify_face` handler
(main.py:2069-2076): translation key and emoji. -/
def loginFaceSteps : List (String × String) :=
  [("face_look_center", "🎯"), ("face_look_up", "👆"), ("face_look_down", "👇"),
   ("face_look_left", "👈"), ("face_look_right", "👉"), ("face_capture_complete", "✅")]

/-- Embedding of the login-page `_verify_voice` handler
(main.py:2019-2061): sets the status, walks the fixed script updating the
UI, then unconditionally marks the voice factor verified.  No sensor or
verification function is consulted and there is no failure branch. -/
def login_verify_voice (s : AppState) (v : Verified) (ui : UiState) :
    AppState × Verified × UiState :=
  let ui := { ui with status_text := "verifying" }
  let ui := (loginVoiceSteps.enum).foldl
    (fun u p =>
      { u with
          direction_icon := p.2.2.1
          direction_text := p.2.1
          progress_text := "Step " ++ toString (p.1 + 1) ++ " of 3" }) ui
  (s, { v with voice := true },
   { ui with direction_icon := "✅", direction_text := "voice_success", status_text := "" })

/-- Embedding of the login-page `_verify_face` handler
(main.py:2063-2096): same shape as the voice handler over the six-step
head-movement script; unconditionally marks the face factor verified. -/
def login_verify_face (s : AppState) (v : Verified) (ui : UiState) :
    AppState × Verified × UiState :=
  let ui := { ui with status_text := "verifying" }
  let ui := (loginFaceSteps.enum).foldl
    (fun u p =>
      { u with
          direction_icon := p.2.2
          direction_text := p.2.1
          progress_text := "Step " ++ toString (p.1 + 1) ++ " of 6" }) ui
  (s, { v with face := true },
   { ui with direction_icon := "✅", direction_text := "face_success", status_text := "" })

/-- Embedding of the login-page `_verify_fingerprint` callback
(main.py:2101-2110): on an OS error the set is untouched, otherwise the
fingerprint factor is marked verified. -/
def login_verify_fingerprint (v : Verified) (error : Bool) : Verified :=
  if error then v else { v with fingerprint := true }

/-- Embedding of `_build_verification_page` entry (main.py:1946-1957): a
locked-out state routes to the lockout page (`none`); otherwise a fresh
session starts with the all-false `verified` dict. -/
def build_verification_session (s : AppState) (now : Nat) :
    Option (Verified × AppState) :=
  let r := is_locked_out s now
  if r.1 then none else some (init_verified, r.2)

/-- Embedding of one firing of `update_countdown` on the lockout page
(main.py:2227-2236): while time remains the state is untouched (display
only); at zero the lockout is cleared and the verification page rebuilt. -/
def update_countdown (s : AppState) (now : Nat) : AppState :=
  if get_lockout_remaining s now > 0 then s else clear_lockout s

/-- Error outcomes of the change/reset passkey dialogs. -/
inductive ChangeErr where
  | wrong_current
  | pass_too_short
  | pass_mismatch
deriving DecidableEq

/-- Embedding of the `_save` handler of `_open_change_passkey`
(main.py:2520-2535): strip all three fields, fail closed on a wrong
current passkey (store untouched), then validate the new passkey, then
store it exactly as `_save_passkey` would. -/
def change_passkey (auth : AuthStore) (cur new_p con fresh_salt : String) :
    AuthStore × Option ChangeErr :=
  let c := pyStrip cur
  let p1 := pyStrip new_p
  let p2 := pyStrip con
  if ¬ verify_passkey auth c then (auth, some .wrong_current)
  else if p1.length < 4 then (auth, some .pass_too_short)
  else if p1 ≠ p2 then (auth, some .pass_mismatch)
  else (save_passkey auth p1 fresh_salt, none)

/-- Embedding of the `_save` handler of `_open_reset_passkey`
(main.py:2305-2319), reached after a correct secret answer: strip and
validate the new passkey, store it, and clear the lockout state. -/
def reset_passkey (s : AppState) (new_p con fresh_salt : String) :
    AppState × Option ChangeErr :=
  let p1 := pyStrip new_p
  let p2 := pyStrip con
  if p1.length < 4 then (s, some .pass_too_short)
  else if p1 ≠ p2 then (s, some .pass_mismatch)
  else (clear_lockout { s with auth := save_passkey s.auth p1 fresh_salt }, none)

/-- Embedding of the `_next` handler of `_build_setup_step1`
(main.py:1274-1283): strip both fields, validate, and hand the stripped
passkey to the rest of the setup flow. -/
def setup_step1_next (new_f con_f : String) : Option String :=
  let p1 := pyStrip new_f
  let p2 := pyStrip con_f
  if p1.length < 4 then none
  else if p1 ≠ p2 then none
  else some p1

/-- Composition of setup step 1 with `_complete_setup` (main.py:1931-1934):
the stored credential and recovery secrets produced from the raw setup
inputs, when step 1 validation passes. -/
def setup_auth (new_f con_f q ans salt asalt : String) : Option AuthStore :=
  (setup_step1_next new_f con_f).map
    (fun p => save_secret_question (save_passkey {} p salt) q ans asalt)

/-! Concrete run used to settle the lockout-escalation and clear claims:
a vault whose passkey was stored from `"abcd"`, attacked with the wrong
candidate `"zzzz"`. -/

/-- One press of the login Verify button with a wrong candidate; only the
resulting app state is kept. -/
def fail_step (cand : String) (now : Nat) (s : AppState) : AppState :=
  (login_verify_passkey s {} cand now).1

/-- `n` consecutive presses of the login Verify button with the same
wrong candidate, at a fixed clock reading. -/
def fail_times (cand : String) (now : Nat) : Nat → AppState → AppState
  | 0, s => s
  | n + 1, s => fail_times cand now n (fail_step cand now s)

/-- Fresh install whose passkey was created from `"abcd"`. -/
def s0 : AppState := { auth := save_passkey {} "abcd" "s1" }

/-- First lockout episode: three wrong attempts at time 0. -/
def lockedOnce : AppState := fail_times "zzzz" 0 3 s0

/-- The lockout page countdown firing at time 60, when the first window
has just expired: the code clears the whole lockout state. -/
def afterExpiry : AppState := update_countdown lockedOnce 60

/-- Second lockout episode, after the in-app expiry: three more wrong
attempts at time 60. -/
def secondEpisode : AppState := fail_times "zzzz" 60 3 afterExpiry

/-- Second lockout episode reached through an app restart instead: the
app is closed while locked and reopened at time 100, after the window
expired, so `update_countdown` never fires and the persisted
`lockout_count` survives. -/
def secondEpisodeRestart : AppState := fail_times "zzzz" 100 3 (restart lockedOnce.auth)

/-- Third lockout episode through another restart at time 300. -/
def thirdEpisodeRestart : AppState :=
  fail_times "zzzz" 300 3 (restart secondEpisodeRestart.auth)

/-- Two wrong attempts at time 0 from the fresh install: the in-memory
and persisted attempt counters are both 2 and no lockout is active. -/
def twoFailures : AppState := fail_times "zzzz" 0 2 s0

/-- Recovery reset executed from `twoFailures` (wrong attempts, then the
forgot-passkey flow with a correct secret answer and a new passkey
`"wxyz"`): ends in `_clear_lockout`. -/
def afterRecoveryReset : AppState := (reset_passkey twoFailures "wxyz" "wxyz" "s2").1

/-- Unfolding of `verify_passkey` on an explicit store, letting `simp`
reuse a verification hypothesis after unrelated fields changed. -/
@[simp] lemma verify_passkey_mk (sa : Option String) (ph : Option Digest)
    (sq : Option String) (sah : Option Digest) (sas : Option String)
    (fa : Nat) (lu : Option Nat) (lc : Nat) (c : String) :
    verify_passkey ⟨sa, ph, sq, sah, sas, fa, lu, lc⟩ c
      = decide (some (hash_passkey c (sa.getD "")) = ph) := rfl

/-- Reflexivity of the pointwise order on the verified set. -/
lemma vle_refl (v : Verified) : vle v v = true := by
  obtain ⟨a, b, c, d⟩ := v
  revert a b c d
  decide

/-- Marking the passkey factor only grows the verified set. -/
lemma vle_set_passkey (v : Verified) : vle v { v with passkey := true } = true := by
  obtain ⟨a, b, c, d⟩ := v
  revert a b c d
  decide

/-- Marking the voice factor only grows the verified set. -/
lemma vle_set_voice (v : Verified) : vle v { v with voice := true } = true := by
  obtain ⟨a, b, c, d⟩ := v
  revert a b c d
  decide

/-- Marking the face factor only grows the verified set. -/
lemma vle_set_face (v : Verified) : vle v { v with face := true } = true := by
  obtain ⟨a, b, c, d⟩ := v
  revert a b c d
  decide

/-- Marking the fingerprint factor only grows the verified set. -/
lemma vle_set_fingerprint (v : Verified) : vle v { v with fingerprint := true } = true := by
  obtain ⟨a, b, c, d⟩ := v
  revert a b c d
  decide

/-- C5: recovery-answer verification is invariant under leading/trailing
whitespace and letter case of the candidate: any candidate whose
stripped, lower-cased form equals that of the stored answer verifies
against the recovery secret created from the stored answer. -/
theorem secret_answer_normalized (a : AuthStore) (q stored cand asalt : String)
    (h : pyLower (pyStrip cand) = pyLower (pyStrip stored)) :
    verify_secret_answer (save_secret_question a q stored asalt) cand = true := by
  simp [verify_secret_answer, save_secret_question, h]

/-- C5 witness: `"Paris"`, `"paris"` and `" paris "` all verify against a
recovery secret whose stored answer is `"Paris"`. -/
theorem secret_answer_normalized_witness :
    verify_secret_answer (save_secret_question {} "q_city" "Paris" "as1") "Paris" = true ∧
    verify_secret_answer (save_secret_question {} "q_city" "Paris" "as1") "paris" = true ∧
    verify_secret_answer (save_secret_question {} "q_city" "Paris" "as1") " paris " = true :=
  ⟨secret_answer_normalized {} "q_city" "Paris" "Paris" "as1" (by decide),
   secret_answer_normalized {} "q_city" "Paris" "paris" "as1" (by decide),
   secret_answer_normalized {} "q_city" "Paris" " paris " "as1" (by decide)⟩

/-- C6: under the ideal-hash model, verifying a passkey against the
credential secret created from it succeeds, and verifying any different
passkey against that secret fails. -/
theorem verify_create_roundtrip (a : AuthStore) (p p2 salt : String) :
    verify_passkey (save_passkey a p salt) p = true ∧
    (p2 ≠ p → verify_passkey (save_passkey a p salt) p2 = false) := by
  constructor
  · simp [verify_passkey, save_passkey]
  · intro hne
    simp [verify_passkey, save_passkey, hash_passkey, hne]

/-- C6 witness: the round trip at the concrete passkey `"abcd"` and the
distinct candidate `"zzzz"`. -/
theorem verify_create_roundtrip_witness :
    verify_passkey (save_passkey {} "abcd" "s1") "abcd" = true ∧
    verify_passkey (save_passkey {} "abcd" "s1") "zzzz" = false :=
  ⟨(verify_create_roundtrip {} "abcd" "zzzz" "s1").1,
   (verify_create_roundtrip {} "abcd" "zzzz" "s1").2 (by decide)⟩

/-- C9: the login voice and face handlers always succeed: for every app
state, session and UI state they leave the app state untouched (no
failure is recorded anywhere) and unconditionally mark their factor
verified, touching nothing else in the verified set; a voice or face
failure outcome is therefore unreachable at login. -/
theorem voice_face_always_succeed (s : AppState) (v : Verified) (ui : UiState) :
    (login_verify_voice s v ui).1 = s ∧
    (login_verify_voice s v ui).2.1 = { v with voice := true } ∧
    (login_verify_face s v ui).1 = s ∧
    (login_verify_face s v ui).2.1 = { v with face := true } :=
  ⟨rfl, rfl, rfl, rfl⟩

/-- C1 counterexample: in the run where the first 60-second window
expires on the lockout page (the coded `update_countdown` path, which
clears the whole lockout state) and the user then fails three more times,
the second lockout window is again 60 seconds, not 120. -/
theorem second_episode_after_inapp_expiry_is_60s :
    get_lockout_remaining lockedOnce 0 = 60 ∧
    afterExpiry = update_countdown lockedOnce 60 ∧
    get_lockout_remaining secondEpisode 60 = 60 ∧
    ¬ get_lockout_remaining secondEpisode 60 = 120 :=
  ⟨by decide, rfl, by decide, by decide⟩

/-- C1 amended: the 120s/240s escalation holds only when `_apply_lockout`
runs while the previous episode's persisted `lockout_count` has not been
cleared — e.g. when the app is closed during the lockout and restarted
after the window expired, so `update_countdown` never fires.  On that
restart path the second episode leaves 120 seconds and the third 240; and
for every state whatsoever a freshly applied window never exceeds
`MAX_LOCKOUT_TIME` (3600 seconds). -/
theorem lockout_escalation_across_restarts :
    (is_locked_out (restart lockedOnce.auth) 100).1 = false ∧
    get_lockout_remaining secondEpisodeRestart 100 = 120 ∧
    (is_locked_out (restart secondEpisodeRestart.auth) 300).1 = false ∧
    get_lockout_remaining thirdEpisodeRestart 300 = 240 ∧
    ∀ (s : AppState) (now : Nat),
      get_lockout_remaining (apply_lockout s now) now ≤ MAX_LOCKOUT_TIME := by
  refine ⟨by decide, by decide, by decide, by decide, ?_⟩
  intro s now
  simp [apply_lockout, get_lockout_remaining]

/-- C2: from a state with a zero attempt counter, no active lockout and
no prior lockout episode, three consecutive passkey failures lock the
vault: the third press reports the lockout, `is_locked` is true at the
same clock reading, and the remaining window is exactly
`LOCKOUT_BASE_TIME` (60 seconds). -/
theorem first_lockout_after_three_failures (s : AppState) (v : Verified)
    (cand : String) (now : Nat)
    (h0 : s.failed_attempts = 0)
    (h1 : s.lockout_until = none)
    (h2 : s.auth.lockout_count = 0)
    (hv : verify_passkey s.auth (pyStrip cand) = false) :
    (login_verify_passkey (fail_times cand now 2 s) v cand now).2.2 = .lockedOut ∧
    (is_locked_out (fail_times cand now 3 s) now).1 = true ∧
    get_lockout_remaining (fail_times cand now 3 s) now = LOCKOUT_BASE_TIME := by
  simp only [verify_passkey, decide_eq_false_iff_not] at hv
  simp [fail_times, fail_step, login_verify_passkey, verify_passkey, hv,
        apply_lockout, is_locked_out, get_lockout_remaining, h0, h1, h2,
        MAX_ATTEMPTS, LOCKOUT_BASE_TIME, LOCKOUT_MULTIPLIER, MAX_LOCKOUT_TIME]

/-- C2 witness: the three-failure lockout on a concrete fresh vault. -/
theorem first_lockout_after_three_failures_witness :
    (login_verify_passkey
        (fail_times "zzzz" 7 2 (restart (save_passkey {} "abcd" "s1"))) {} "zzzz" 7).2.2
      = .lockedOut ∧
    (is_locked_out (fail_times "zzzz" 7 3 (restart (save_passkey {} "abcd" "s1"))) 7).1
      = true ∧
    get_lockout_remaining (fail_times "zzzz" 7 3 (restart (save_passkey {} "abcd" "s1"))) 7
      = LOCKOUT_BASE_TIME :=
  first_lockout_after_three_failures (restart (save_passkey {} "abcd" "s1")) {} "zzzz" 7
    (by decide) (by decide) (by decide) (by decide)

/-- C3 (code slip): `_clear_lockout` zeroes the persisted
`failed_attempts`, `lockout_count` and `lockout_until` in the store and
the in-memory lockout mirrors, but never assigns the in-memory
`self._failed_attempts`.  Concretely: after two wrong attempts and a
successful recovery reset, the in-memory counter is still 2 while the
store says 0, so the very next wrong attempt locks the vault instead of
starting a fresh three-attempt cycle (the window, at least, is the base
60 seconds). -/
theorem clear_lockout_misses_memory_counter :
    (∀ s : AppState,
        (clear_lockout s).failed_attempts = s.failed_attempts ∧
        (clear_lockout s).auth.failed_attempts = 0 ∧
        (clear_lockout s).lockout_count = 0 ∧
        (clear_lockout s).auth.lockout_count = 0 ∧
        (clear_lockout s).lockout_until = none ∧
        (clear_lockout s).auth.lockout_until = none) ∧
    twoFailures.failed_attempts = 2 ∧
    afterRecoveryReset.failed_attempts = 2 ∧
    afterRecoveryReset.auth.failed_attempts = 0 ∧
    (login_verify_passkey afterRecoveryReset {} "zzzz" 0).2.2 = .lockedOut ∧
    get_lockout_remaining (login_verify_passkey afterRecoveryReset {} "zzzz" 0).1 0
      = LOCKOUT_BASE_TIME :=
  ⟨fun _ => ⟨rfl, rfl, rfl, rfl, rfl, rfl⟩,
   by decide, by decide, by decide, by decide, by decide⟩

/-- C4: when fewer than `MAX_ATTEMPTS` failures have accumulated, a
successful passkey verification zeroes the attempt counter in memory and
store, marks the passkey factor verified and advances the sequencer,
while leaving `lockout_count` and `lockout_until` untouched in both the
memory mirrors and the store. -/
theorem success_resets_attempts_only (s : AppState) (v : Verified)
    (cand : String) (now : Nat)
    (h : s.failed_attempts < MAX_ATTEMPTS)
    (hv : verify_passkey s.auth (pyStrip cand) = true) :
    (login_verify_passkey s v cand now).1.failed_attempts = 0 ∧
    (login_verify_passkey s v cand now).1.auth.failed_attempts = 0 ∧
    (login_verify_passkey s v cand now).1.lockout_count = s.lockout_count ∧
    (login_verify_passkey s v cand now).1.auth.lockout_count = s.auth.lockout_count ∧
    (login_verify_passkey s v cand now).1.lockout_until = s.lockout_until ∧
    (login_verify_passkey s v cand now).1.auth.lockout_until = s.auth.lockout_until ∧
    (login_verify_passkey s v cand now).2.1 = { v with passkey := true } ∧
    (login_verify_passkey s v cand now).2.2 = .nextStep := by
  unfold login_verify_passkey
  rw [if_neg (by omega), if_pos hv]
  simp

/-- C4 witness: a successful login press on a concrete vault that has
accumulated no failures. -/
theorem success_resets_attempts_only_witness :
    (login_verify_passkey (restart (save_passkey {} "abcd" "s1")) {} " abcd " 5).1.failed_attempts = 0 ∧
    (login_verify_passkey (restart (save_passkey {} "abcd" "s1")) {} " abcd " 5).1.auth.failed_attempts = 0 ∧
    (login_verify_passkey (restart (save_passkey {} "abcd" "s1")) {} " abcd " 5).1.lockout_count
      = (restart (save_passkey {} "abcd" "s1")).lockout_count ∧
    (login_verify_passkey (restart (save_passkey {} "abcd" "s1")) {} " abcd " 5).1.auth.lockout_count
      = (restart (save_passkey {} "abcd" "s1")).auth.lockout_count ∧
    (login_verify_passkey (restart (save_passkey {} "abcd" "s1")) {} " abcd " 5).1.lockout_until
      = (restart (save_passkey {} "abcd" "s1")).lockout_until ∧
    (login_verify_passkey (restart (save_passkey {} "abcd" "s1")) {} " abcd " 5).1.auth.lockout_until
      = (restart (save_passkey {} "abcd" "s1")).auth.lockout_until ∧
    (login_verify_passkey (restart (save_passkey {} "abcd" "s1")) {} " abcd " 5).2.1
      = { init_verified with passkey := true } ∧
    (login_verify_passkey (restart (save_passkey {} "abcd" "s1")) {} " abcd " 5).2.2
      = .nextStep :=
  success_resets_attempts_only (restart (save_passkey {} "abcd" "s1")) {} " abcd " 5
    (by decide) (by decide)

/-- C7: the change-passkey dialog fails closed with the wrong-current
error, leaving the stored salt and hash untouched, whenever the current
passkey does not verify; and when it verifies and the new passkey passes
the length-4 check (with a matching confirmation), it stores a fresh
salt and the keyed hash of the new passkey exactly as `_save_passkey`
would. -/
theorem change_passkey_spec (a : AuthStore) (cur new_p con fresh_salt : String) :
    (verify_passkey a (pyStrip cur) = false →
        change_passkey a cur new_p con fresh_salt = (a, some ChangeErr.wrong_current)) ∧
    (verify_passkey a (pyStrip cur) = true →
      4 ≤ (pyStrip new_p).length →
      pyStrip new_p = pyStrip con →
        change_passkey a cur new_p con fresh_salt
          = (save_passkey a (pyStrip new_p) fresh_salt, none)) := by
  constructor
  · intro h
    simp [change_passkey, h]
  · intro h1 h2 h3
    simp [change_passkey, h1, ← h3, Nat.not_lt.mpr h2]

/-- C7 witness: both branches on a concrete vault created from
`"abcd"` — a wrong current passkey is rejected with the store unchanged,
and the correct one replaces the secret as `create` would. -/
theorem change_passkey_spec_witness :
    change_passkey (save_passkey {} "abcd" "s1") "nope" "efgh" "efgh" "s2"
      = (save_passkey {} "abcd" "s1", some ChangeErr.wrong_current) ∧
    change_passkey (save_passkey {} "abcd" "s1") " abcd " "efgh" "efgh" "s2"
      = (save_passkey (save_passkey {} "abcd" "s1") "efgh" "s2", none) :=
  ⟨(change_passkey_spec (save_passkey {} "abcd" "s1") "nope" "efgh" "efgh" "s2").1
      (by decide),
   (change_passkey_spec (save_passkey {} "abcd" "s1") " abcd " "efgh" "efgh" "s2").2
      (by decide) (by decide) (by decide)⟩

/-- C8: within one unlock session the verified set grows monotonically —
no login handler (passkey, voice, face or fingerprint) ever removes a
factor from it — and the set is not persisted: a restart rebuilds the
session with the all-false verified set while carrying over exactly the
persisted store (the lockout state) into the new app state. -/
theorem verified_monotone_and_session_local :
    (∀ (s : AppState) (v : Verified) (c : String) (now : Nat),
        vle v (login_verify_passkey s v c now).2.1 = true) ∧
    (∀ (s : AppState) (v : Verified) (ui : UiState),
        vle v (login_verify_voice s v ui).2.1 = true) ∧
    (∀ (s : AppState) (v : Verified) (ui : UiState),
        vle v (login_verify_face s v ui).2.1 = true) ∧
    (∀ (v : Verified) (e : Bool), vle v (login_verify_fingerprint v e) = true) ∧
    (∀ (a : AuthStore) (now : Nat),
        ((build_verification_session (restart a) now).map Prod.fst).getD init_verified
          = init_verified ∧
        (restart a).auth = a ∧
        (restart a).failed_attempts = a.failed_attempts) := by
  refine ⟨?_, ?_, ?_, ?_, ?_⟩
  · intro s v c now
    simp only [login_verify_passkey]
    split
    · exact vle_refl v
    · split
      · exact vle_set_passkey v
      · split
        · exact vle_refl v
        · exact vle_refl v
  · intro s v ui
    exact vle_set_voice v
  · intro s v ui
    exact vle_set_face v
  · intro v e
    unfold login_verify_fingerprint
    split
    · exact vle_refl v
    · exact vle_set_fingerprint v
  · intro a now
    refine ⟨?_, rfl, rfl⟩
    simp only [build_verification_session]
    split <;> simp

/-- C10: every passkey entry point strips the entered text before hashing
or verifying, so inputs differing only in surrounding whitespace are
interchangeable at each of them; end to end, a candidate whose stripped
form equals the stripped setup input unlocks the vault set up from it. -/
theorem passkey_inputs_stripped_everywhere :
    (∀ (s : AppState) (v : Verified) (c c2 : String) (now : Nat),
        pyStrip c = pyStrip c2 →
        login_verify_passkey s v c now = login_verify_passkey s v c2 now) ∧
    (∀ (a : AuthStore) (cur cur2 np np2 cf cf2 fresh_salt : String),
        pyStrip cur = pyStrip cur2 → pyStrip np = pyStrip np2 →
        pyStrip cf = pyStrip cf2 →
        change_passkey a cur np cf fresh_salt = change_passkey a cur2 np2 cf2 fresh_salt) ∧
    (∀ (s : AppState) (np np2 cf cf2 fresh_salt : String),
        pyStrip np = pyStrip np2 → pyStrip cf = pyStrip cf2 →
        reset_passkey s np cf fresh_salt = reset_passkey s np2 cf2 fresh_salt) ∧
    (∀ (nf nf2 cf cf2 : String),
        pyStrip nf = pyStrip nf2 → pyStrip cf = pyStrip cf2 →
        setup_step1_next nf cf = setup_step1_next nf2 cf2) ∧
    (∀ (nf cf q ans fresh_salt asalt c : String) (v : Verified) (now : Nat)
        (a2 : AuthStore),
        setup_auth nf cf q ans fresh_salt asalt = some a2 →
        pyStrip c = pyStrip nf →
        (login_verify_passkey (restart a2) v c now).2.2 = LoginOutcome.nextStep ∧
        (login_verify_passkey (restart a2) v c now).2.1.passkey = true) := by
  refine ⟨?_, ?_, ?_, ?_, ?_⟩
  · intro s v c c2 now h
    unfold login_verify_passkey
    rw [h]
  · intro a cur cur2 np np2 cf cf2 fresh_salt h1 h2 h3
    unfold change_passkey
    rw [h1, h2, h3]
  · intro s np np2 cf cf2 fresh_salt h1 h2
    unfold reset_passkey
    rw [h1, h2]
  · intro nf nf2 cf cf2 h1 h2
    unfold setup_step1_next
    rw [h1, h2]
  · intro nf cf q ans fresh_salt asalt c v now a2 ha hc
    unfold setup_auth at ha
    cases hstep : setup_step1_next nf cf with
    | none =>
        rw [hstep] at ha
        exact absurd ha (by simp)
    | some p =>
        rw [hstep] at ha
        have hp : p = pyStrip nf := by
          simp only [setup_step1_next] at hstep
          split at hstep
          · exact absurd hstep (by simp)
          · split at hstep
            · exact absurd hstep (by simp)
            · simpa using hstep.symm
        simp only [Option.map_some', Option.some.injEq] at ha
        subst ha
        subst hp
        simp [login_verify_passkey, restart, save_passkey, save_secret_question,
              verify_passkey, MAX_ATTEMPTS, hc]

/-- C10 witness: the setup input `" abcd "` stores the trimmed passkey
and the whitespace-padded candidate `"  abcd"` then unlocks the vault;
and the login handler treats `"abcd"` and `" abcd "` identically. -/
theorem passkey_inputs_stripped_everywhere_witness :
    ((login_verify_passkey
        (restart (save_secret_question (save_passkey {} "abcd" "s1") "q_city" "Paris" "as1"))
        {} "  abcd" 3).2.2 = LoginOutcome.nextStep ∧
      (login_verify_passkey
        (restart (save_secret_question (save_passkey {} "abcd" "s1") "q_city" "Paris" "as1"))
        {} "  abcd" 3).2.1.passkey = true) ∧
    login_verify_passkey s0 {} "abcd" 4 = login_verify_passkey s0 {} " abcd " 4 :=
  ⟨passkey_inputs_stripped_everywhere.2.2.2.2 " abcd " "abcd" "q_city" "Paris" "s1" "as1"
      "  abcd" {} 3
      (save_secret_question (save_passkey {} "abcd" "s1") "q_city" "Paris" "as1")
      (by decide) (by decide),
   passkey_inputs_stripped_everywhere.1 s0 {} "abcd" " abcd " 4 (by decide)⟩

end MyVault
